import Mathlib

/-!
Verification of the autotrader decision core.

Shallow embedding (over ℚ for prices / dollar amounts) of:
  * `autotrader/trailing_stop.py`     — the 4-phase trailing-stop ratchet
  * `autotrader/core/risk.py`         — the pre-trade risk gate (`RiskManager`)
  * `autotrader/core/strategy_manager.py` — the capital-bucket allocator
  * `autotrader_v5/mancini_monitor.py`    — the failed-breakdown state machine

Python `float` arithmetic is embedded as exact rational arithmetic; Python's
`round(x, 2)` (banker's rounding) is embedded as `round2`, and Python's `int(x)`
truncation toward zero as `truncInt`.  File, console and clock I/O of the
source is outside the embedding; every time-of-day read is threaded as an
explicit argument, and broker calls are threaded as explicit per-cycle
responses.  Human-readable reason/adjustment strings are abbreviated (their
f-string interpolations dropped); no claim depends on their exact text,
only on which messages are present.
-/

/-- Python's `round` on a half-integer rounds to the even neighbour; this is
round-half-even of a rational to an integer. -/
def roundHalfEven (x : ℚ) : ℤ :=
  if x - ⌊x⌋ < 1/2 then ⌊x⌋
  else if 1/2 < x - ⌊x⌋ then ⌊x⌋ + 1
  else if ⌊x⌋ % 2 = 0 then ⌊x⌋ else ⌊x⌋ + 1

/-- Python's `round(x, 2)`: round to two decimal places, half to even. -/
def round2 (x : ℚ) : ℚ := (roundHalfEven (x * 100) : ℚ) / 100

/-- Python's `int(x)`: truncation toward zero. -/
def truncInt (x : ℚ) : ℤ := if 0 ≤ x then ⌊x⌋ else -⌊-x⌋

/-! ## Trailing-stop ratchet (`autotrader/trailing_stop.py`) -/

/-- The `phase` field of a trailing-stop record. -/
inductive Phase
  | INITIAL
  | T1_HIT
  | T2_HIT
  | RUNAWAY
  deriving DecidableEq, Repr

/-- Transition order of the phases. -/
def Phase.idx : Phase → ℕ
  | .INITIAL => 0
  | .T1_HIT => 1
  | .T2_HIT => 2
  | .RUNAWAY => 3

/-- Per-strategy phase settings (`PHASE_CONFIGS` entries); only the keys read
by `update_stop`. -/
structure PhaseConfig where
  initial_stop_pct : ℚ
  t1_pct : ℚ
  t2_pct : ℚ
  t1_trail : ℚ
  t2_trail : ℚ
  runaway_trail : ℚ
  runaway_trigger_mult : ℚ
  deriving DecidableEq, Repr

/-- The `"swing"` entry of `PHASE_CONFIGS`. -/
def swingConfig : PhaseConfig :=
  { initial_stop_pct := 5, t1_pct := 4, t2_pct := 8,
    t1_trail := 1/500, t2_trail := 1/2, runaway_trail := 7/10,
    runaway_trigger_mult := 2 }

/-- One per-ticker trailing-stop record (the dict stored per ticker in
`trailing_stops.json`); timestamps, ticker and strategy name are not read by
the update computation and are omitted. -/
structure StopRecord where
  entry : ℚ
  stop : ℚ
  phase : Phase
  t1_target : ℚ
  t2_target : ℚ
  runaway_target : ℚ
  highest_price : ℚ
  config : PhaseConfig
  deriving DecidableEq, Repr

/-- `init_position`: the record built for a new position. -/
def init_position (entry_price : ℚ) (config : PhaseConfig) : StopRecord :=
  let stop_price := round2 (entry_price * (1 - config.initial_stop_pct / 100))
  let t1_target := round2 (entry_price * (1 + config.t1_pct / 100))
  let t2_target := round2 (entry_price * (1 + config.t2_pct / 100))
  let t2_gain := t2_target - entry_price
  let runaway_target := round2 (entry_price + config.runaway_trigger_mult * t2_gain)
  { entry := entry_price, stop := stop_price, phase := .INITIAL,
    t1_target := t1_target, t2_target := t2_target,
    runaway_target := runaway_target, highest_price := entry_price,
    config := config }

/-- `update_stop` (`trailing_stop.py` lines 113–201), the decision core: the
stop/phase/highest-price computation on one record for one current price.
The `new_stop`/`new_phase` locals are threaded through the same guard
sequence as the source; the source's outer and inner guards of the T2 and
runaway transition blocks are equivalent to the single disjunctions used
here. -/
def update_stop (pos : StopRecord) (current_price : ℚ) : StopRecord :=
  let old_stop := pos.stop
  let old_phase := pos.phase
  let entry := pos.entry
  let config := pos.config
  let highest := if pos.highest_price < current_price then current_price else pos.highest_price
  -- phase transitions (`new_stop`/`new_phase` are assigned together in each
  -- source branch; they are threaded as paired lets here)
  let c1 := old_phase = .INITIAL ∧ pos.t1_target ≤ current_price
  let ns1 := if c1 then round2 (entry * (1 + config.t1_trail)) else old_stop
  let np1 := if c1 then .T1_HIT else old_phase
  let c2 := (old_phase = .T1_HIT ∨ np1 = .T1_HIT) ∧ pos.t2_target ≤ current_price
  let ns2 := if c2 then round2 (entry + (highest - entry) * config.t2_trail) else ns1
  let np2 := if c2 then .T2_HIT else np1
  let c3 := (old_phase = .T2_HIT ∨ np2 = .T2_HIT) ∧ pos.runaway_target ≤ current_price
  let ns3 := if c3 then round2 (entry + (highest - entry) * config.runaway_trail) else ns2
  let np3 := if c3 then .RUNAWAY else np2
  -- within T2: update trail
  let trail_t2 := round2 (entry + (highest - entry) * config.t2_trail)
  let ns4 := if np3 = .T2_HIT ∧ old_phase = .T2_HIT ∧ old_stop < trail_t2 then trail_t2 else ns3
  -- within RUNAWAY: update trail
  let c5 := np3 = .RUNAWAY ∨ old_phase = .RUNAWAY
  let trail_run := round2 (entry + (highest - entry) * config.runaway_trail)
  let ns5 := if c5 ∧ ns4 < trail_run then trail_run else ns4
  let np5 := if c5 then .RUNAWAY else np3
  -- stop only moves UP
  { pos with stop := max ns5 old_stop, phase := np5, highest_price := highest }

/-- Iterated updates over a price sequence. -/
def update_stops (pos : StopRecord) (prices : List ℚ) : StopRecord :=
  prices.foldl update_stop pos

/-- The breakeven-plus stop ratcheted to on the T1 transition. -/
def breakevenStop (q : StopRecord) : ℚ :=
  round2 (q.entry * (1 + q.config.t1_trail))

/-- The 50%-style trail floor used in `T2_HIT`, from a given running high. -/
def t2TrailStop (q : StopRecord) (highest : ℚ) : ℚ :=
  round2 (q.entry + (highest - q.entry) * q.config.t2_trail)

/-- The 70%-style trail floor used in `RUNAWAY`, from a given running high. -/
def runTrailStop (q : StopRecord) (highest : ℚ) : ℚ :=
  round2 (q.entry + (highest - q.entry) * q.config.runaway_trail)

/-! ## Pre-trade risk gate (`autotrader/core/risk.py`)

`TradeSignal` / `SignalAction` come from `core/signals.py`, which is imported
by `risk.py` but absent from the sources at hand; the fields below are
modelled from the spec's Candidate data model and from how `check_signal`
reads and writes them.  `AccountInfo` and `Position` are from
`core/broker.py`, `RiskConfig` from `core/config.py`. -/

/-- Modelled from the spec: the action of a candidate signal
(`core/signals.py` `SignalAction`; members as used across the repo). -/
inductive SignalAction
  | BUY
  | SCALE_IN
  | SELL
  | CLOSE
  deriving DecidableEq, Repr

/-- Modelled from the spec: a candidate trade signal (`core/signals.py`
`TradeSignal`); exactly the fields `check_signal` reads or mutates. -/
structure TradeSignal where
  ticker : String
  action : SignalAction
  entry_price : ℚ
  stop_loss_price : ℚ
  qty : ℤ
  position_size_usd : ℚ
  sector : String
  deriving DecidableEq, Repr

/-- `core/broker.py` `AccountInfo`. -/
structure AccountInfo where
  equity : ℚ
  cash : ℚ
  buying_power : ℚ
  portfolio_value : ℚ
  daily_pnl : ℚ
  daily_pnl_pct : ℚ
  open_position_count : ℕ
  is_trading_blocked : Bool
  is_pattern_day_trader : Bool
  deriving DecidableEq, Repr

/-- `core/broker.py` `Position`. -/
structure Position where
  ticker : String
  qty : ℚ
  side : String
  avg_entry_price : ℚ
  current_price : ℚ
  market_value : ℚ
  unrealized_pnl : ℚ
  unrealized_pnl_pct : ℚ
  cost_basis : ℚ
  deriving DecidableEq, Repr

/-- `core/config.py` `RiskConfig`; the fields `RiskManager` reads. -/
structure RiskConfig where
  max_position_pct : ℚ := 5
  min_position_usd : ℚ := 500
  max_position_usd : ℚ := 25000
  max_open_positions : ℕ := 10
  daily_loss_halt_pct : ℚ := -3
  daily_loss_reduce_pct : ℚ := -2
  mandatory_stop_loss : Bool := true
  default_stop_pct : ℚ := 5
  no_entry_last_30min : Bool := true
  no_entry_first_15min : Bool := true
  deriving DecidableEq, Repr

/-- `RiskCheckResult`. -/
structure RiskCheckResult where
  approved : Bool
  signal : TradeSignal
  reasons : List String
  adjustments : List String
  original_qty : ℤ
  adjusted_qty : ℤ
  deriving DecidableEq, Repr

/-- `RiskManager._find_position`. -/
def find_position (ticker : String) (positions : List Position) : Option Position :=
  positions.find? (fun p => p.ticker.toUpper = ticker.toUpper)

/-- `RiskManager._validate_position_size`: cap the dollar size, shrinking the
quantity.  Returns the mutated signal and the adjustment message, if any.
Note the source returns right after applying the %-of-equity cap, so the
absolute cap is only consulted when the %-cap did not bind. -/
def validate_position_size (cfg : RiskConfig) (s : TradeSignal) (account : AccountInfo) :
    TradeSignal × Option String :=
  let max_usd := account.equity * (cfg.max_position_pct / 100)
  if max_usd < s.position_size_usd then
    ({ s with position_size_usd := max_usd,
              qty := if 0 < s.entry_price then truncInt (max_usd / s.entry_price) else s.qty },
     some "Size reduced (max pct of equity)")
  else if cfg.max_position_usd < s.position_size_usd then
    ({ s with position_size_usd := cfg.max_position_usd,
              qty := if 0 < s.entry_price then truncInt (cfg.max_position_usd / s.entry_price)
                     else s.qty },
     some "Size capped at hard limit")
  else (s, none)

/-- `RiskManager._check_time_window`, with the wall clock threaded in as
minutes after midnight ET. -/
def check_time_window (cfg : RiskConfig) (now_minutes : ℕ) : Option String :=
  if cfg.no_entry_first_15min ∧ now_minutes < 585 then
    some "Too early - no entries in first 15 min"
  else if cfg.no_entry_last_30min ∧ 930 < now_minutes then
    some "Too late - no entries in last 30 min"
  else none

/-- A rejecting `RiskCheckResult` (every rejection site passes
`adjustments=[]` and `adjusted_qty=0`). -/
def rejectResult (s : TradeSignal) (reasons : List String) (oq : ℤ) : RiskCheckResult :=
  { approved := false, signal := s, reasons := reasons, adjustments := [],
    original_qty := oq, adjusted_qty := 0 }

/-- Checks 10 and 11 of `check_signal` (minimum size, time window) and the
final approval. -/
def finish_checks (cfg : RiskConfig) (s : TradeSignal) (now_minutes : ℕ) (oq : ℤ)
    (reasons adjustments : List String) : RiskCheckResult :=
  if s.position_size_usd < cfg.min_position_usd then
    rejectResult s ["Position too small"] oq
  else
    match check_time_window cfg now_minutes with
    | some msg => rejectResult s [msg] oq
    | none =>
      { approved := true, signal := s, reasons := reasons ++ ["All risk checks passed"],
        adjustments := adjustments, original_qty := oq, adjusted_qty := s.qty }

/-- Checks 6–9 of `check_signal` (sector stub, size validation, mandatory
stop, buying power), then `finish_checks`.  The sector-exposure check of the
source always returns `None` (inert stub) and adds nothing. -/
def check_signal_rest (cfg : RiskConfig) (s1 : TradeSignal) (account : AccountInfo)
    (now_minutes : ℕ) (oq : ℤ) (reasons adjustments : List String) : RiskCheckResult :=
  -- 7. position size validation
  let v := validate_position_size cfg s1 account
  let s2 := v.1
  let adjustments := adjustments ++ v.2.toList
  -- 8. mandatory stop loss
  let auto_stop := cfg.mandatory_stop_loss ∧ s2.stop_loss_price ≤ 0 ∧
      (s2.action = .BUY ∨ s2.action = .SCALE_IN)
  let s3 := if auto_stop then
      { s2 with stop_loss_price := round2 (s2.entry_price * (1 - cfg.default_stop_pct / 100)) }
    else s2
  let adjustments := if auto_stop then adjustments ++ ["Auto-set stop loss"] else adjustments
  -- 9. buying power
  let required_cash := (s3.qty : ℚ) * s3.entry_price
  if account.buying_power < required_cash then
    let max_shares := truncInt (account.buying_power * 0.95 / s3.entry_price)
    if 0 < max_shares then
      let s4 := { s3 with qty := max_shares,
                          position_size_usd := (max_shares : ℚ) * s3.entry_price }
      finish_checks cfg s4 now_minutes oq reasons
        (adjustments ++ ["Reduced shares to fit buying power"])
    else rejectResult s3 ["Insufficient buying power"] oq
  else finish_checks cfg s3 now_minutes oq reasons adjustments

/-- `RiskManager.check_signal`.  The manager's mutable halt state is threaded
explicitly: the result is paired with the halt flag after the call (the
source's `_check_daily_pnl` sets `self._halted` as a side effect; nothing in
`check_signal` ever clears it).  The wall clock read by the time-window check
is the `now_minutes` argument. -/
def check_signal (cfg : RiskConfig) (halted : Bool) (halt_reason : String)
    (signal : TradeSignal) (account : AccountInfo) (positions : List Position)
    (now_minutes : ℕ) : RiskCheckResult × Bool :=
  let oq := signal.qty
  -- 1. circuit breaker
  if halted then
    (rejectResult signal ["Trading halted: " ++ halt_reason] oq, halted)
  -- 2. daily P&L circuit breaker (sets the halt flag)
  else if account.daily_pnl_pct ≤ cfg.daily_loss_halt_pct then
    (rejectResult signal ["Daily loss halt"] oq, true)
  -- 3. account blocked
  else if account.is_trading_blocked then
    (rejectResult signal ["Account trading is blocked by broker"] oq, false)
  -- 4. max open positions (blocks fresh BUY entries only)
  else if cfg.max_open_positions ≤ positions.length ∧ signal.action = .BUY then
    (rejectResult signal ["Max positions reached"] oq, false)
  else
    -- 5. duplicate position: convert BUY to SCALE_IN below 60% of the cap
    match find_position signal.ticker positions with
    | some existing =>
      if signal.action = .BUY then
        let reasons := ["Already holding " ++ signal.ticker]
        let current_exposure := existing.market_value / account.equity * 100
        if current_exposure < cfg.max_position_pct * 0.6 then
          (check_signal_rest cfg { signal with action := .SCALE_IN } account now_minutes oq
            reasons ["Converted to SCALE_IN"], false)
        else
          (rejectResult signal (reasons ++ ["Position already at exposure cap"]) oq, false)
      else (check_signal_rest cfg signal account now_minutes oq [] [], false)
    | none => (check_signal_rest cfg signal account now_minutes oq [] [], false)

/-- `RiskManager.reset_halt`. -/
def reset_halt : Bool × String := (false, "")

/-- One `check_signal` call's per-cycle inputs. -/
structure RiskCall where
  signal : TradeSignal
  account : AccountInfo
  positions : List Position
  now_minutes : ℕ

/-- The halt flag after a sequence of `check_signal` calls. -/
def run_check_signals (cfg : RiskConfig) (halted : Bool) (r : String)
    (calls : List RiskCall) : Bool :=
  calls.foldl
    (fun h c => (check_signal cfg h r c.signal c.account c.positions c.now_minutes).2) halted

/-- Concrete account used by the risk-gate witnesses: flat P&L, ample buying
power. -/
def wAccount : AccountInfo :=
  { equity := 100000, cash := 50000, buying_power := 50000,
    portfolio_value := 100000, daily_pnl := 0, daily_pnl_pct := 0,
    open_position_count := 0, is_trading_blocked := false,
    is_pattern_day_trader := false }

/-- Concrete account with the day down 4% (beyond the −3% halt threshold). -/
def wAccountDown : AccountInfo :=
  { wAccount with daily_pnl := -4000, daily_pnl_pct := -4 }

/-- Concrete BUY signal with a supplied stop. -/
def wSignalBuy : TradeSignal :=
  { ticker := "XLB", action := .BUY, entry_price := 50,
    stop_loss_price := 45, qty := 10, position_size_usd := 500, sector := "M" }

/-- Scenario B inputs: 1000 shares at $50 requested, $10,000 buying power;
equity and the hard cap are large enough that no other check binds. -/
def scenarioBConfig : RiskConfig := { max_position_usd := 100000 }

/-- Scenario B account: $10,000 buying power. -/
def scenarioBAccount : AccountInfo :=
  { equity := 1200000, cash := 10000, buying_power := 10000,
    portfolio_value := 1200000, daily_pnl := 0, daily_pnl_pct := 0,
    open_position_count := 0, is_trading_blocked := false,
    is_pattern_day_trader := false }

/-- Scenario B candidate: 1000 shares at $50 ($50,000). -/
def scenarioBSignal : TradeSignal :=
  { ticker := "XLB", action := .BUY, entry_price := 50,
    stop_loss_price := 45, qty := 1000, position_size_usd := 50000, sector := "M" }

/-- Concrete BUY candidate with no stop supplied. -/
def wSignalStopless : TradeSignal :=
  { ticker := "XYZ", action := .BUY, entry_price := 50,
    stop_loss_price := 0, qty := 10, position_size_usd := 500, sector := "M" }

/-- A held position in the same ticker (1% of equity). -/
def wPositionXYZ : Position :=
  { ticker := "XYZ", qty := 20, side := "long", avg_entry_price := 50,
    current_price := 50, market_value := 1000, unrealized_pnl := 0,
    unrealized_pnl_pct := 0, cost_basis := 1000 }

/-- Concrete SELL candidate with no stop supplied. -/
def wSignalSell : TradeSignal :=
  { ticker := "XYZ", action := .SELL, entry_price := 50,
    stop_loss_price := 0, qty := 10, position_size_usd := 500, sector := "M" }

/-- Config with a 10% equity cap and the default $25,000 hard cap. -/
def cxConfig : RiskConfig := { max_position_pct := 10 }

/-- A $10M-equity account, making the %-of-equity cap $1,000,000. -/
def cxAccount : AccountInfo :=
  { equity := 10000000, cash := 1000000, buying_power := 1000000,
    portfolio_value := 10000000, daily_pnl := 0, daily_pnl_pct := 0,
    open_position_count := 0, is_trading_blocked := false,
    is_pattern_day_trader := false }

/-- Consistent $2M candidate (20000 shares at $100). -/
def cxSignalA : TradeSignal :=
  { ticker := "AAA", action := .BUY, entry_price := 100,
    stop_loss_price := 90, qty := 20000, position_size_usd := 2000000, sector := "M" }

/-- Candidate whose dollar size is inconsistent with its 1-share quantity. -/
def cxSignalB : TradeSignal :=
  { ticker := "BBB", action := .BUY, entry_price := 10,
    stop_loss_price := 9, qty := 1, position_size_usd := 2000000, sector := "M" }

/-! ## Capital-bucket allocator (`autotrader/core/strategy_manager.py`)

The manager's mutable state (per-bucket `StrategyProfile`s plus the tracked
position list) is threaded explicitly; file persistence, dates and the
reporting methods are outside the embedding.  Profile fields that the
capital operations never read (entry/exit rule parameters, universe
filters, descriptions) are omitted. -/

/-- `StrategyID`. -/
inductive StrategyID
  | SHORT_MOMENTUM
  | PIPELINE_SWING
  | MEAN_REVERSION
  | SECTOR_ETF
  | SECTOR_STOCKS
  deriving DecidableEq, Repr

/-- `TrackedPosition.status` values (`"open"`, `"partial"`, `"closed"`). -/
inductive PosStatus
  | opened
  | part
  | closed
  deriving DecidableEq, Repr

/-- `StrategyProfile` (capital and tracking fields). -/
structure StrategyProfile where
  starting_capital : ℚ := 10000
  current_capital : ℚ := 10000
  max_positions : ℕ := 5
  max_position_pct : ℚ := 25
  max_risk_per_trade_pct : ℚ := 2
  reinvest_profits : Bool := true
  total_trades : ℕ := 0
  winning_trades : ℕ := 0
  total_realized_pnl : ℚ := 0
  peak_capital : ℚ := 10000
  max_drawdown : ℚ := 0
  deriving DecidableEq, Repr

/-- `build_default_strategies`: the five configured buckets (their capital
fields). -/
def build_default_strategies : StrategyID → StrategyProfile
  | .SHORT_MOMENTUM =>
    { max_positions := 4, max_position_pct := 30, max_risk_per_trade_pct := 2 }
  | .PIPELINE_SWING =>
    { max_positions := 5, max_position_pct := 25, max_risk_per_trade_pct := 3/2 }
  | .MEAN_REVERSION =>
    { max_positions := 4, max_position_pct := 30, max_risk_per_trade_pct := 2 }
  | .SECTOR_ETF =>
    { max_positions := 3, max_position_pct := 40, max_risk_per_trade_pct := 3/2 }
  | .SECTOR_STOCKS =>
    { max_positions := 5, max_position_pct := 25, max_risk_per_trade_pct := 3/2 }

/-- `TrackedPosition` (fields read by the capital operations). -/
structure TrackedPosition where
  ticker : String
  strategy_id : StrategyID
  entry_price : ℚ
  qty : ℤ
  cost_basis : ℚ
  status : PosStatus
  realized_pnl : ℚ
  remaining_qty : ℤ
  deriving DecidableEq, Repr

/-- `TrackedPosition.__post_init__` on the default path: `remaining_qty`
defaults to `qty` and `cost_basis` to `entry_price * qty`. -/
def mkTrackedPosition (ticker : String) (sid : StrategyID) (entry_price : ℚ) (qty : ℤ) :
    TrackedPosition :=
  { ticker := ticker, strategy_id := sid, entry_price := entry_price, qty := qty,
    cost_basis := entry_price * qty, status := .opened, realized_pnl := 0,
    remaining_qty := qty }

/-- The `StrategyManager`'s mutable state. -/
structure ManagerState where
  strategies : StrategyID → StrategyProfile
  positions : List TrackedPosition

/-- The state as loaded at configuration time (no saved positions). -/
def initialManagerState : ManagerState :=
  { strategies := build_default_strategies, positions := [] }

/-- Pointwise update of one bucket's profile. -/
def updateBucket (f : StrategyID → StrategyProfile) (sid : StrategyID)
    (prof : StrategyProfile) : StrategyID → StrategyProfile :=
  fun x => if x = sid then prof else f x

/-- The `deployed` sum inside `get_available_capital`: total cost basis of
the bucket's open positions. -/
def deployed_cost (ps : List TrackedPosition) (sid : StrategyID) : ℚ :=
  ps.foldr (fun p acc =>
    if p.strategy_id = sid ∧ p.status = .opened then p.cost_basis + acc else acc) 0

/-- `StrategyManager.get_available_capital`. -/
def get_available_capital (st : ManagerState) (sid : StrategyID) : ℚ :=
  max 0 ((st.strategies sid).current_capital - deployed_cost st.positions sid)

/-- `StrategyManager.get_position_count`. -/
def get_position_count (st : ManagerState) (sid : StrategyID) : ℕ :=
  (st.positions.filter (fun p => p.strategy_id = sid ∧ p.status = .opened)).length

/-- `StrategyManager.can_open_position`. -/
def can_open_position (st : ManagerState) (sid : StrategyID) (cost : ℚ) : Bool × String :=
  let profile := st.strategies sid
  if profile.max_positions ≤ get_position_count st sid then
    (false, "max positions reached")
  else if get_available_capital st sid < cost then
    (false, "insufficient capital")
  else if profile.current_capital * (profile.max_position_pct / 100) < cost then
    (false, "position too large")
  else (true, "OK")

/-- `StrategyManager.open_position`. -/
def open_position (st : ManagerState) (p : TrackedPosition) : ManagerState × Bool :=
  if (can_open_position st p.strategy_id p.cost_basis).1 then
    let profile := st.strategies p.strategy_id
    ({ strategies := updateBucket st.strategies p.strategy_id
         { profile with total_trades := profile.total_trades + 1 },
       positions := st.positions ++ [p] }, true)
  else (st, false)

/-- Python's `qty or pos.remaining_qty` (`None` and `0` both fall back). -/
def pyCloseQty (oq : Option ℤ) (remaining : ℤ) : ℤ :=
  match oq with
  | none => remaining
  | some q => if q = 0 then remaining else q

/-- Outcome of mutating the first matching tracked position. -/
structure CloseOutcome where
  pnl : ℚ
  pos : TrackedPosition
  full : Bool
  deriving DecidableEq, Repr

/-- The `_find_position` + in-place mutation + removal of
`StrategyManager.close_position`, walking the list for the first open or
partial position with the ticker. -/
def close_in_list (tk : String) (exit_price : ℚ) (oq : Option ℤ) :
    List TrackedPosition → List TrackedPosition × Option CloseOutcome
  | [] => ([], none)
  | p :: rest =>
    if p.ticker.toUpper = tk.toUpper ∧ (p.status = .opened ∨ p.status = .part) then
      let cq : ℤ := min (pyCloseQty oq p.remaining_qty) p.remaining_qty
      let pnl := (exit_price - p.entry_price) * (cq : ℚ)
      let p' : TrackedPosition :=
        { p with realized_pnl := p.realized_pnl + pnl,
                 remaining_qty := p.remaining_qty - cq }
      if p'.remaining_qty ≤ 0 then
        (rest, some ⟨pnl, { p' with status := .closed }, true⟩)
      else
        ({ p' with status := .part } :: rest, some ⟨pnl, { p' with status := .part }, false⟩)
    else
      let r := close_in_list tk exit_price oq rest
      (p :: r.1, r.2)

/-- `StrategyManager.close_position`. -/
def close_position (st : ManagerState) (tk : String) (exit_price : ℚ) (oq : Option ℤ) :
    ManagerState × Option ℚ :=
  let r := close_in_list tk exit_price oq st.positions
  match r.2 with
  | none => (st, none)
  | some out =>
    if out.full then
      let sid := out.pos.strategy_id
      let prof0 := st.strategies sid
      let prof1 := { prof0 with
        total_realized_pnl := prof0.total_realized_pnl + out.pos.realized_pnl,
        winning_trades := if 0 < out.pos.realized_pnl then prof0.winning_trades + 1
                          else prof0.winning_trades }
      let prof2 := if prof1.reinvest_profits then
          { prof1 with current_capital := prof1.current_capital + out.pos.realized_pnl }
        else prof1
      let prof3 := if prof2.peak_capital < prof2.current_capital then
          { prof2 with peak_capital := prof2.current_capital }
        else prof2
      let dd := (prof3.peak_capital - prof3.current_capital) / prof3.peak_capital * 100
      let prof4 := if prof3.max_drawdown < dd then { prof3 with max_drawdown := dd }
        else prof3
      ({ strategies := updateBucket st.strategies sid prof4, positions := r.1 }, some out.pnl)
    else
      ({ st with positions := r.1 }, some out.pnl)

/-- One routed call on the manager. -/
inductive MgrOp
  | openPos (p : TrackedPosition)
  | closePos (tk : String) (exit_price : ℚ) (oq : Option ℤ)

/-- Run a sequence of open/close calls. -/
def run_ops (st : ManagerState) (ops : List MgrOp) : ManagerState :=
  ops.foldl (fun st op =>
    match op with
    | .openPos p => (open_position st p).1
    | .closePos tk x oq => (close_position st tk x oq).1) st

/-- Well-formedness of a freshly opened tracked position: the dataclass
default path (`__post_init__`) with nonnegative price and share count. -/
def WFOpenPos (p : TrackedPosition) : Prop :=
  p.status = .opened ∧ p.realized_pnl = 0 ∧ p.remaining_qty = p.qty ∧
  p.cost_basis = p.entry_price * (p.qty : ℚ) ∧ 0 ≤ p.entry_price ∧ 0 ≤ p.qty

/-- Well-formed calls: opened positions on the default dataclass path, and
closes that are full (no quantity argument) at a nonnegative exit price. -/
def WFOp : MgrOp → Prop
  | .openPos p => WFOpenPos p
  | .closePos _ x oq => oq = none ∧ 0 ≤ x

/-- The bucket invariant together with the bookkeeping facts that keep it
inductive. -/
def ManagerInv (st : ManagerState) : Prop :=
  (∀ sid, deployed_cost st.positions sid ≤ (st.strategies sid).current_capital) ∧
  (∀ p ∈ st.positions, WFOpenPos p)

/-- Concrete well-formed call sequence for the witness. -/
def wOps : List MgrOp :=
  [ .openPos (mkTrackedPosition "AAA" .SHORT_MOMENTUM 30 100),
    .openPos (mkTrackedPosition "BBB" .SHORT_MOMENTUM 25 100),
    .closePos "AAA" 33 none ]

/-- The call sequence of the C5 counterexample: three $3,000 openings, a
partial close of half of AAA at $0, a fourth opening admitted while AAA sits
in `partial` status (its cost basis no longer counted as deployed), then the
full close of AAA realizing the whole loss. -/
def cxOps : List MgrOp :=
  [ .openPos (mkTrackedPosition "AAA" .SHORT_MOMENTUM 30 100),
    .openPos (mkTrackedPosition "BBB" .SHORT_MOMENTUM 30 100),
    .openPos (mkTrackedPosition "CCC" .SHORT_MOMENTUM 30 100),
    .closePos "AAA" 0 (some 50),
    .openPos (mkTrackedPosition "DDD" .SHORT_MOMENTUM 30 100),
    .closePos "AAA" 0 none ]

/-! ## Failed-breakdown engine (`autotrader_v5/mancini_monitor.py`)

`ManciniEngine.run_cycle` is embedded as a pure step function.  The wall
clock (`is_force_exit_time`, the time part of `is_trading_allowed`) is
threaded as two Booleans, and each cycle's broker interactions
(`market_buy`, `limit_sell`, `trailing_stop_sell` results and the open-order
id list) as an explicit `BrokerCycle` record; order-id strings stand in for
the Alpaca responses.  Logging is outside the embedding. -/

/-- The `ManciniState.state` strings. -/
inductive MState
  | IDLE
  | NEAR_LEVEL
  | FLUSH_DETECTED
  | ACCEPTANCE_WAIT
  | ENTERED
  | TIER1_HIT
  | EXITED
  deriving DecidableEq, Repr

/-- `ManciniState` (fields read or written by `run_cycle`). -/
structure ManciniState where
  state : MState := .IDLE
  prior_day_low : ℚ := 0
  prior_day_high : ℚ := 0
  flush_low : ℚ := 0
  flush_size : ℚ := 0
  flush_type : String := ""
  acceptance_candles_elapsed : ℕ := 0
  acceptance_candles_needed : ℕ := 0
  entry_price : Option ℚ := none
  stop_price : Option ℚ := none
  target1 : Option ℚ := none
  shares_entered : ℤ := 0
  tier1_order_id : Option String := none
  runner_order_id : Option String := none
  trades_today : ℕ := 0
  deriving DecidableEq, Repr

/-- The `MANCINI` parameter table (price parameters as exact rationals). -/
structure ManciniParams where
  near_level_buffer : ℚ := 2
  fb_min_flush : ℚ := 1
  fb_flush_deep_threshold : ℚ := 3
  fb_max_flush : ℚ := 8
  acceptance_candles_shallow : ℕ := 2
  acceptance_candles_deep : ℕ := 12
  stop_buffer : ℚ := 1/2
  danger_zone_buffer : ℚ := 5
  min_reward_risk : ℚ := 2
  tier1_exit_pct : ℚ := 3/4
  tier1_target_mult : ℚ := 2
  risk_per_trade : ℚ := 500
  deriving Repr

/-- The `MANCINI` dict values. -/
def MANCINI : ManciniParams := {}

/-- One cycle's broker responses: the order ids returned by `market_buy`,
`limit_sell` and `trailing_stop_sell` (`none` = submission failure), and the
ids listed by `get_open_orders`. -/
structure BrokerCycle where
  buy_id : Option String := none
  limit_sell_id : Option String := none
  trail_id : Option String := none
  open_order_ids : List String := []
  deriving Repr

/-- `ManciniEngine._execute_entry`. -/
def execute_entry (br : BrokerCycle) (s : ManciniState) (price : ℚ) : ManciniState :=
  let stop := s.flush_low - MANCINI.stop_buffer
  let stop_dist := price - stop
  if stop_dist ≤ 0 then { s with state := .IDLE }
  else
    let target1 := price + stop_dist * MANCINI.tier1_target_mult
    let rr := (target1 - price) / stop_dist
    if rr < MANCINI.min_reward_risk then { s with state := .IDLE }
    else
      let shares := max 1 (truncInt (MANCINI.risk_per_trade / stop_dist))
      match br.buy_id with
      | none => { s with state := .IDLE }
      | some _ =>
        { s with entry_price := some price,
                 stop_price := some (round2 stop),
                 target1 := some (round2 target1),
                 shares_entered := shares,
                 tier1_order_id := br.limit_sell_id,
                 state := .ENTERED }

/-- `ManciniEngine.run_cycle`.  `force_exit` is `is_force_exit_time()`;
`time_ok` is the clock/weekday/window part of `is_trading_allowed()` (its
trade-count part is computed from the state against `max_daily`). -/
def run_cycle (br : BrokerCycle) (force_exit time_ok : Bool) (max_daily : ℕ)
    (s : ManciniState) (spy_price : ℚ) : ManciniState :=
  if force_exit then
    if s.state = .ENTERED ∨ s.state = .TIER1_HIT then { s with state := .EXITED } else s
  else if ¬ (time_ok ∧ s.trades_today < max_daily) then s
  else
    match s.state, () with
    | .IDLE, _ | .EXITED, _ =>
      -- reset after exit, then watch for proximity to the prior day low
      let s := if s.state = .EXITED then
          { s with state := .IDLE, flush_low := 0, entry_price := none,
                   tier1_order_id := none, runner_order_id := none }
        else s
      if 0 < s.prior_day_low ∧ spy_price - s.prior_day_low ≤ MANCINI.near_level_buffer then
        { s with state := .NEAR_LEVEL }
      else s
    | .NEAR_LEVEL, _ =>
      let flush := s.prior_day_low - spy_price
      if MANCINI.fb_min_flush ≤ flush then
        if MANCINI.fb_max_flush < flush then { s with state := .IDLE }
        else
          { s with flush_low := spy_price, flush_size := flush,
                   flush_type := if MANCINI.fb_flush_deep_threshold ≤ flush then "deep"
                                 else "shallow",
                   acceptance_candles_needed :=
                     if MANCINI.fb_flush_deep_threshold ≤ flush then
                       MANCINI.acceptance_candles_deep
                     else MANCINI.acceptance_candles_shallow,
                   acceptance_candles_elapsed := 0,
                   state := .FLUSH_DETECTED }
      else s
    | .FLUSH_DETECTED, _ => { s with state := .ACCEPTANCE_WAIT }
    | .ACCEPTANCE_WAIT, _ =>
      if s.flush_low + MANCINI.danger_zone_buffer < spy_price then
        -- Form 3 non-acceptance rip: enter immediately
        execute_entry br s spy_price
      else if s.prior_day_low < spy_price then
        let s := { s with acceptance_candles_elapsed := s.acceptance_candles_elapsed + 1 }
        if s.acceptance_candles_needed ≤ s.acceptance_candles_elapsed then
          execute_entry br s spy_price
        else s
      else
        if MANCINI.fb_max_flush < s.prior_day_low - spy_price then { s with state := .IDLE }
        else s
    | .ENTERED, _ =>
      match s.stop_price with
      | none => s  -- unreachable from entry (the source would raise on None)
      | some sp =>
        if spy_price ≤ sp then
          { s with state := .EXITED, trades_today := s.trades_today + 1 }
        else
          match s.tier1_order_id with
          | none => s
          | some t1 =>
            if t1 ∈ br.open_order_ids then s
            else
              { s with runner_order_id := br.trail_id, tier1_order_id := none,
                       state := .TIER1_HIT }
    | .TIER1_HIT, _ =>
      match s.runner_order_id with
      | none => s
      | some rid =>
        if rid ∈ br.open_order_ids then s
        else { s with state := .EXITED, trades_today := s.trades_today + 1 }

/-- A NEAR_LEVEL state watching the $590 prior-day low. -/
def fbNear : ManciniState := { state := .NEAR_LEVEL, prior_day_low := 590 }

/-- An ACCEPTANCE_WAIT state one confirming tick away from entry, carrying a
stop price left over from an earlier trade of the day. -/
def fbWait : ManciniState :=
  { state := .ACCEPTANCE_WAIT, prior_day_low := 590, flush_low := 588,
    flush_size := 2, flush_type := "shallow", acceptance_candles_needed := 2,
    acceptance_candles_elapsed := 1, stop_price := some 580, trades_today := 1 }

/-- Fresh engine state at the day's start: only the prior-day low is set. -/
def fbS0 : ManciniState := { prior_day_low := 590 }

/-- Broker cycle in which the market buy succeeds but the tier-1 limit-sell
submission fails. -/
def fbBrokerLimitFail : BrokerCycle := { buy_id := some "B1" }

/-- Five poll cycles: approach the low, flush $2 under it, transition,
reclaim for two confirming ticks; the entry fires on the last cycle with a
failing limit-sell submission. -/
def fbChain : ManciniState :=
  run_cycle fbBrokerLimitFail false true 5
    (run_cycle {} false true 5
      (run_cycle {} false true 5
        (run_cycle {} false true 5
          (run_cycle {} false true 5 fbS0 591) 588) 589) 591) 591

/-! ## Theorems -/

theorem truncInt_le (x : ℚ) (hx : 0 ≤ x) : (truncInt x : ℚ) ≤ x := by
  simp only [truncInt, if_pos hx]
  exact Int.floor_le x

theorem roundHalfEven_pos (x : ℚ) (hx : 1/2 < x) : 1 ≤ roundHalfEven x := by
  have hf0 : (0 : ℤ) ≤ ⌊x⌋ := Int.floor_nonneg.mpr (by linarith)
  unfold roundHalfEven
  split_ifs with h1 h2 h3
  · have h0 : (0 : ℚ) < (⌊x⌋ : ℚ) := by linarith
    exact_mod_cast Int.add_one_le_iff.mpr (show (0 : ℤ) < ⌊x⌋ by exact_mod_cast h0)
  · omega
  · have h0 : (0 : ℚ) < (⌊x⌋ : ℚ) := by linarith
    exact_mod_cast Int.add_one_le_iff.mpr (show (0 : ℤ) < ⌊x⌋ by exact_mod_cast h0)
  · omega

theorem round2_pos (x : ℚ) (hx : 1/200 < x) : 0 < round2 x := by
  unfold round2
  have h : 1/2 < x * 100 := by linarith
  have := roundHalfEven_pos _ h
  positivity

theorem update_stop_stop_mono (pos : StopRecord) (p : ℚ) :
    pos.stop ≤ (update_stop pos p).stop := by
  simp only [update_stop]
  exact le_max_right _ _

theorem update_stop_phase_mono (pos : StopRecord) (p : ℚ) :
    pos.phase.idx ≤ (update_stop pos p).phase.idx := by
  simp only [update_stop]
  split_ifs <;> simp_all [Phase.idx]

/-- C1: along any finite sequence of ratchet updates, each further update
leaves the stop no lower and the phase no earlier. -/
theorem trailing_stop_ratchet_monotone (pos : StopRecord) (prices : List ℚ) (p : ℚ) :
    (update_stops pos prices).stop ≤ (update_stops pos (prices ++ [p])).stop ∧
    (update_stops pos prices).phase.idx ≤ (update_stops pos (prices ++ [p])).phase.idx := by
  unfold update_stops
  rw [List.foldl_append]
  exact ⟨update_stop_stop_mono _ _, update_stop_phase_mono _ _⟩

theorem if_lt_max (a b : ℚ) : (if a < b then b else a) = max a b := by
  split_ifs with h
  · exact (max_eq_right h.le).symm
  · exact (max_eq_left (not_lt.mp h)).symm

theorem max_absorb_right (s t : ℚ) : max (max s t) t = max s t :=
  max_eq_left (le_max_right s t)

theorem max_absorb_left (s t : ℚ) : max (max t s) t = max t s :=
  max_eq_left (le_max_left t s)

theorem update_stop_eq_initial_stay (q : StopRecord) (p : ℚ) (h : q.phase = .INITIAL)
    (h1 : ¬ q.t1_target ≤ p) :
    update_stop q p
      = { q with stop := q.stop, phase := .INITIAL,
                 highest_price := max q.highest_price p } := by
  simp [update_stop, h, h1, if_lt_max]

theorem update_stop_eq_initial_t1 (q : StopRecord) (p : ℚ) (h : q.phase = .INITIAL)
    (h1 : q.t1_target ≤ p) (h2 : ¬ q.t2_target ≤ p) :
    update_stop q p
      = { q with stop := max (breakevenStop q) q.stop, phase := .T1_HIT,
                 highest_price := max q.highest_price p } := by
  simp [update_stop, h, h1, h2, if_lt_max, breakevenStop]

theorem update_stop_eq_initial_t2 (q : StopRecord) (p : ℚ) (h : q.phase = .INITIAL)
    (h1 : q.t1_target ≤ p) (h2 : q.t2_target ≤ p) (h3 : ¬ q.runaway_target ≤ p) :
    update_stop q p
      = { q with stop := max (t2TrailStop q (max q.highest_price p)) q.stop,
                 phase := .T2_HIT,
                 highest_price := max q.highest_price p } := by
  simp [update_stop, h, h1, h2, h3, if_lt_max, t2TrailStop]

theorem update_stop_eq_initial_run (q : StopRecord) (p : ℚ) (h : q.phase = .INITIAL)
    (h1 : q.t1_target ≤ p) (h2 : q.t2_target ≤ p) (h3 : q.runaway_target ≤ p) :
    update_stop q p
      = { q with stop := max (runTrailStop q (max q.highest_price p)) q.stop,
                 phase := .RUNAWAY,
                 highest_price := max q.highest_price p } := by
  simp [update_stop, h, h1, h2, h3, if_lt_max, runTrailStop]

theorem update_stop_eq_t1_stay (q : StopRecord) (p : ℚ) (h : q.phase = .T1_HIT)
    (h2 : ¬ q.t2_target ≤ p) :
    update_stop q p
      = { q with stop := q.stop, phase := .T1_HIT,
                 highest_price := max q.highest_price p } := by
  simp [update_stop, h, h2, if_lt_max]

theorem update_stop_eq_t1_t2 (q : StopRecord) (p : ℚ) (h : q.phase = .T1_HIT)
    (h2 : q.t2_target ≤ p) (h3 : ¬ q.runaway_target ≤ p) :
    update_stop q p
      = { q with stop := max (t2TrailStop q (max q.highest_price p)) q.stop,
                 phase := .T2_HIT,
                 highest_price := max q.highest_price p } := by
  simp [update_stop, h, h2, h3, if_lt_max, t2TrailStop]

theorem update_stop_eq_t1_run (q : StopRecord) (p : ℚ) (h : q.phase = .T1_HIT)
    (h2 : q.t2_target ≤ p) (h3 : q.runaway_target ≤ p) :
    update_stop q p
      = { q with stop := max (runTrailStop q (max q.highest_price p)) q.stop,
                 phase := .RUNAWAY,
                 highest_price := max q.highest_price p } := by
  simp [update_stop, h, h2, h3, if_lt_max, runTrailStop]

theorem update_stop_eq_t2_stay (q : StopRecord) (p : ℚ) (h : q.phase = .T2_HIT)
    (h3 : ¬ q.runaway_target ≤ p) :
    update_stop q p
      = { q with stop := max q.stop (t2TrailStop q (max q.highest_price p)),
                 phase := .T2_HIT,
                 highest_price := max q.highest_price p } := by
  simp [update_stop, h, h3, if_lt_max, t2TrailStop]

theorem update_stop_eq_t2_run (q : StopRecord) (p : ℚ) (h : q.phase = .T2_HIT)
    (h3 : q.runaway_target ≤ p) :
    update_stop q p
      = { q with stop := max (runTrailStop q (max q.highest_price p)) q.stop,
                 phase := .RUNAWAY,
                 highest_price := max q.highest_price p } := by
  simp [update_stop, h, h3, if_lt_max, runTrailStop]

theorem update_stop_eq_runaway (q : StopRecord) (p : ℚ) (h : q.phase = .RUNAWAY) :
    update_stop q p
      = { q with stop := max q.stop (runTrailStop q (max q.highest_price p)),
                 phase := .RUNAWAY,
                 highest_price := max q.highest_price p } := by
  simp [update_stop, h, if_lt_max, runTrailStop]

/-- C8: one ratchet update with an unchanged price is idempotent — the second
update changes nothing (the stop/phase/highest computation of `update_stop`
is a pure function of the record and the price). -/
theorem update_stop_idempotent (q : StopRecord) (p : ℚ) :
    update_stop (update_stop q p) p = update_stop q p := by
  rcases hph : q.phase with _ | _ | _ | _
  case INITIAL =>
    by_cases h1 : q.t1_target ≤ p
    · by_cases h2 : q.t2_target ≤ p
      · by_cases h3 : q.runaway_target ≤ p
        · rw [update_stop_eq_initial_run q p hph h1 h2 h3,
              update_stop_eq_runaway _ p rfl]
          simp [runTrailStop, max_absorb_right, max_absorb_left]
        · rw [update_stop_eq_initial_t2 q p hph h1 h2 h3]
          rw [update_stop_eq_t2_stay _ p rfl (by simpa using h3)]
          simp [t2TrailStop, max_absorb_right, max_absorb_left]
      · rw [update_stop_eq_initial_t1 q p hph h1 h2]
        rw [update_stop_eq_t1_stay _ p rfl (by simpa using h2)]
        simp
    · rw [update_stop_eq_initial_stay q p hph h1]
      rw [update_stop_eq_initial_stay _ p rfl (by simpa using h1)]
      simp
  case T1_HIT =>
    by_cases h2 : q.t2_target ≤ p
    · by_cases h3 : q.runaway_target ≤ p
      · rw [update_stop_eq_t1_run q p hph h2 h3,
            update_stop_eq_runaway _ p rfl]
        simp [runTrailStop, max_absorb_right, max_absorb_left]
      · rw [update_stop_eq_t1_t2 q p hph h2 h3]
        rw [update_stop_eq_t2_stay _ p rfl (by simpa using h3)]
        simp [t2TrailStop, max_absorb_right, max_absorb_left]
    · rw [update_stop_eq_t1_stay q p hph h2]
      rw [update_stop_eq_t1_stay _ p rfl (by simpa using h2)]
      simp
  case T2_HIT =>
    by_cases h3 : q.runaway_target ≤ p
    · rw [update_stop_eq_t2_run q p hph h3,
          update_stop_eq_runaway _ p rfl]
      simp [runTrailStop, max_absorb_right, max_absorb_left]
    · rw [update_stop_eq_t2_stay q p hph h3]
      rw [update_stop_eq_t2_stay _ p rfl (by simpa using h3)]
      simp [t2TrailStop, max_absorb_right, max_absorb_left]
  case RUNAWAY =>
    rw [update_stop_eq_runaway q p hph, update_stop_eq_runaway _ p rfl]
    simp [runTrailStop, max_absorb_right, max_absorb_left]

theorem check_signal_halted_snd (cfg : RiskConfig) (r : String) (s : TradeSignal)
    (a : AccountInfo) (ps : List Position) (n : ℕ) :
    (check_signal cfg true r s a ps n).2 = true := by
  simp [check_signal]

/-- C2: with the halt flag set, every signal is rejected whatever its fields,
and the flag survives any sequence of further `check_signal` calls (only
`reset_halt` clears it); a daily P&L at or below the configured threshold
sets the flag. -/
theorem circuit_breaker_halt_blocks (cfg : RiskConfig) (r : String) (s : TradeSignal)
    (a : AccountInfo) (ps : List Position) (n : ℕ) (calls : List RiskCall) :
    (check_signal cfg true r s a ps n).1.approved = false ∧
    (check_signal cfg true r s a ps n).2 = true ∧
    run_check_signals cfg true r calls = true ∧
    (a.daily_pnl_pct ≤ cfg.daily_loss_halt_pct → (check_signal cfg false r s a ps n).2 = true) ∧
    reset_halt.1 = false := by
  refine ⟨by simp [check_signal, rejectResult], check_signal_halted_snd .., ?_, ?_, rfl⟩
  · induction calls with
    | nil => rfl
    | cons c cs ih =>
      show run_check_signals cfg ((check_signal cfg true r _ _ _ _).2) r cs = true
      rw [check_signal_halted_snd]
      exact ih
  · intro hpnl
    simp [check_signal, hpnl]

theorem circuit_breaker_halt_blocks_witness :
    (check_signal {} true "daily loss" wSignalBuy wAccount [] 700).1.approved = false ∧
    run_check_signals {} true "daily loss"
      [⟨wSignalBuy, wAccount, [], 700⟩, ⟨wSignalBuy, wAccount, [], 710⟩] = true ∧
    wAccountDown.daily_pnl_pct ≤ RiskConfig.daily_loss_halt_pct {} ∧
    (check_signal {} false "" wSignalBuy wAccountDown [] 700).2 = true := by
  obtain ⟨h1, -, h3, h4, -⟩ :=
    circuit_breaker_halt_blocks {} "daily loss" wSignalBuy wAccount [] 700
      [⟨wSignalBuy, wAccount, [], 700⟩, ⟨wSignalBuy, wAccount, [], 710⟩]
  have hp : wAccountDown.daily_pnl_pct ≤ RiskConfig.daily_loss_halt_pct {} := by
    norm_num [wAccountDown, wAccount]
  exact ⟨h1, h3, hp,
    (circuit_breaker_halt_blocks {} "" wSignalBuy wAccountDown [] 700 []).2.2.2.1 hp⟩

/-- C9: scenario B — quantity is cut to `int(10000·0.95/50) = 190` shares,
an adjustment is recorded, and the trade is approved. -/
theorem scenarioB_reduces_to_190_shares :
    (check_signal scenarioBConfig false "" scenarioBSignal scenarioBAccount [] 700).1.approved
        = true ∧
    (check_signal scenarioBConfig false "" scenarioBSignal scenarioBAccount [] 700).1.adjusted_qty
        = 190 ∧
    (check_signal scenarioBConfig false "" scenarioBSignal scenarioBAccount [] 700).1.adjustments
        = ["Reduced shares to fit buying power"] := by
  norm_num [check_signal, check_signal_rest, finish_checks, validate_position_size,
    check_time_window, find_position, rejectResult, truncInt, round2, roundHalfEven,
    scenarioBConfig, scenarioBSignal, scenarioBAccount]

theorem finish_checks_not_approved (cfg : RiskConfig) (s : TradeSignal) (n : ℕ) (oq : ℤ)
    (rs adjs : List String) :
    (finish_checks cfg s n oq rs adjs).approved = false →
    (finish_checks cfg s n oq rs adjs).adjustments = [] := by
  unfold finish_checks
  split_ifs with h1
  · intro _; rfl
  · rcases htw : check_time_window cfg n with _ | msg <;> simp [htw, rejectResult]

theorem check_signal_rest_not_approved (cfg : RiskConfig) (s1 : TradeSignal)
    (a : AccountInfo) (n : ℕ) (oq : ℤ) (rs adjs : List String) :
    (check_signal_rest cfg s1 a n oq rs adjs).approved = false →
    (check_signal_rest cfg s1 a n oq rs adjs).adjustments = [] := by
  simp only [check_signal_rest]
  split_ifs <;> intro happ <;>
    first
      | rfl
      | exact finish_checks_not_approved _ _ _ _ _ _ happ

/-- C10: every rejection returns an empty `adjustments` list, even though the
in-place mutations already applied to the signal (action conversion,
auto-stop, size cuts) are carried by the returned signal. -/
theorem rejected_results_have_empty_adjustments (cfg : RiskConfig) (h : Bool) (r : String)
    (s : TradeSignal) (a : AccountInfo) (ps : List Position) (n : ℕ) :
    (check_signal cfg h r s a ps n).1.approved = false →
    (check_signal cfg h r s a ps n).1.adjustments = [] := by
  simp only [check_signal]
  rcases hf : find_position s.ticker ps with _ | ex <;> simp only [hf] <;>
    split_ifs <;> intro happ <;>
      first
        | rfl
        | exact check_signal_rest_not_approved _ _ _ _ _ _ _ happ

theorem rejected_results_have_empty_adjustments_witness :
    (check_signal {} false "" wSignalStopless wAccount [wPositionXYZ] 1000).1.approved
        = false ∧
    (check_signal {} false "" wSignalStopless wAccount [wPositionXYZ] 1000).1.adjustments
        = [] ∧
    (check_signal {} false "" wSignalStopless wAccount [wPositionXYZ] 1000).1.signal.action
        = .SCALE_IN ∧
    wSignalStopless.action = .BUY ∧
    (check_signal {} false "" wSignalStopless wAccount
        [wPositionXYZ] 1000).1.signal.stop_loss_price = 47.5 ∧
    wSignalStopless.stop_loss_price = 0 := by
  have happ : (check_signal {} false "" wSignalStopless wAccount
      [wPositionXYZ] 1000).1.approved = false := by
    norm_num [check_signal, check_signal_rest, finish_checks, validate_position_size,
      check_time_window, find_position, rejectResult, truncInt, round2, roundHalfEven,
      wSignalStopless, wPositionXYZ, wAccount]
  refine ⟨happ,
    rejected_results_have_empty_adjustments {} false "" wSignalStopless wAccount
      [wPositionXYZ] 1000 happ, ?_, rfl, ?_, rfl⟩
  · norm_num [check_signal, check_signal_rest, finish_checks, validate_position_size,
      check_time_window, find_position, rejectResult, truncInt, round2, roundHalfEven,
      wSignalStopless, wPositionXYZ, wAccount]
  · norm_num [check_signal, check_signal_rest, finish_checks, validate_position_size,
      check_time_window, find_position, rejectResult, truncInt, round2, roundHalfEven,
      wSignalStopless, wPositionXYZ, wAccount]

theorem sell_is_not_entry :
    (SignalAction.SELL = SignalAction.BUY ∨ SignalAction.SELL = SignalAction.SCALE_IN)
      = False := by
  simp

/-- C3 counterexample: a SELL signal carrying `stop_loss_price = 0` passes
every check and is approved with its stop still 0 — the mandatory-stop
auto-fill only fires for BUY/SCALE_IN actions, so "every approved result has
a strictly positive stop" is false as stated. -/
theorem approved_with_zero_stop :
    (check_signal {} false "" wSignalSell wAccount [] 700).1.approved = true ∧
    (check_signal {} false "" wSignalSell wAccount [] 700).1.signal.stop_loss_price = 0 := by
  constructor <;>
    norm_num [check_signal, check_signal_rest, finish_checks, validate_position_size,
      check_time_window, find_position, rejectResult, truncInt, round2, roundHalfEven,
      wSignalSell, wAccount, sell_is_not_entry]

theorem truncInt_pos_le (x : ℚ) (hx : 0 < truncInt x) : 1 ≤ x := by
  unfold truncInt at hx
  split_ifs at hx with h0
  · calc (1 : ℚ) ≤ (⌊x⌋ : ℚ) := by exact_mod_cast hx
    _ ≤ x := Int.floor_le x
  · exfalso
    have : (0 : ℤ) ≤ ⌊-x⌋ := Int.floor_nonneg.mpr (by linarith [not_le.mp h0])
    omega

theorem validate_position_size_entry (cfg : RiskConfig) (s : TradeSignal) (a : AccountInfo) :
    (validate_position_size cfg s a).1.entry_price = s.entry_price ∧
    (validate_position_size cfg s a).1.stop_loss_price = s.stop_loss_price ∧
    (validate_position_size cfg s a).1.action = s.action := by
  simp only [validate_position_size]
  split_ifs <;> exact ⟨rfl, rfl, rfl⟩

theorem finish_checks_approved_spec (cfg : RiskConfig) (s : TradeSignal) (n : ℕ) (oq : ℤ)
    (rs adjs : List String)
    (happ : (finish_checks cfg s n oq rs adjs).approved = true) :
    (finish_checks cfg s n oq rs adjs).adjusted_qty = s.qty ∧
    (finish_checks cfg s n oq rs adjs).signal = s := by
  unfold finish_checks at happ ⊢
  split_ifs at happ ⊢ with h1
  · simp [rejectResult] at happ
  · rcases htw : check_time_window cfg n with _ | msg
    · exact ⟨rfl, rfl⟩
    · rw [htw] at happ
      simp [rejectResult] at happ

theorem bp_shrink_le (a : AccountInfo) (e : ℚ) (hentry : 0 < e)
    (hms : 0 < truncInt (a.buying_power * 0.95 / e)) :
    (truncInt (a.buying_power * 0.95 / e) : ℚ) * e ≤ a.buying_power := by
  have h1x : 1 ≤ a.buying_power * 0.95 / e := truncInt_pos_le _ hms
  have htle : (truncInt (a.buying_power * 0.95 / e) : ℚ) ≤ a.buying_power * 0.95 / e :=
    truncInt_le _ (by linarith)
  have hxe : a.buying_power * 0.95 / e * e = a.buying_power * 0.95 :=
    div_mul_cancel₀ _ (ne_of_gt hentry)
  have h2 : (truncInt (a.buying_power * 0.95 / e) : ℚ) * e ≤ a.buying_power * 0.95 / e * e :=
    mul_le_mul_of_nonneg_right htle hentry.le
  have h3 : e ≤ a.buying_power * 0.95 / e * e := by nlinarith
  have hbp0 : 0 < a.buying_power := by nlinarith
  linarith [h2, hxe, h3]

theorem check_signal_rest_approved_spec (cfg : RiskConfig) (s1 : TradeSignal)
    (a : AccountInfo) (n : ℕ) (oq : ℤ) (rs adjs : List String)
    (hentry : 0 < s1.entry_price)
    (happ : (check_signal_rest cfg s1 a n oq rs adjs).approved = true) :
    ((check_signal_rest cfg s1 a n oq rs adjs).adjusted_qty : ℚ) * s1.entry_price
        ≤ a.buying_power ∧
    (check_signal_rest cfg s1 a n oq rs adjs).signal.stop_loss_price =
      (if cfg.mandatory_stop_loss ∧ s1.stop_loss_price ≤ 0 ∧
          (s1.action = .BUY ∨ s1.action = .SCALE_IN) then
        round2 (s1.entry_price * (1 - cfg.default_stop_pct / 100))
      else s1.stop_loss_price) := by
  obtain ⟨he2, hst2, hac2⟩ := validate_position_size_entry cfg s1 a
  simp only [check_signal_rest] at happ ⊢
  rw [he2, hst2, hac2] at happ ⊢
  by_cases hauto : cfg.mandatory_stop_loss = true ∧ s1.stop_loss_price ≤ 0 ∧
      (s1.action = SignalAction.BUY ∨ s1.action = SignalAction.SCALE_IN)
  · simp only [if_pos hauto] at happ ⊢
    by_cases hbp : a.buying_power < ((validate_position_size cfg s1 a).1.qty : ℚ) * s1.entry_price
    · simp only [if_pos hbp] at happ ⊢
      by_cases hms : 0 < truncInt (a.buying_power * 0.95 / s1.entry_price)
      · simp only [if_pos hms] at happ ⊢
        obtain ⟨hq, hsig⟩ := finish_checks_approved_spec _ _ _ _ _ _ happ
        rw [hq, hsig]
        exact ⟨bp_shrink_le a s1.entry_price hentry hms, rfl⟩
      · simp only [if_neg hms] at happ
        simp [rejectResult] at happ
    · simp only [if_neg hbp] at happ ⊢
      obtain ⟨hq, hsig⟩ := finish_checks_approved_spec _ _ _ _ _ _ happ
      rw [hq, hsig]
      exact ⟨not_lt.mp hbp, rfl⟩
  · simp only [if_neg hauto] at happ ⊢
    rw [he2] at happ ⊢
    by_cases hbp : a.buying_power < ((validate_position_size cfg s1 a).1.qty : ℚ) * s1.entry_price
    · simp only [if_pos hbp] at happ ⊢
      by_cases hms : 0 < truncInt (a.buying_power * 0.95 / s1.entry_price)
      · simp only [if_pos hms] at happ ⊢
        obtain ⟨hq, hsig⟩ := finish_checks_approved_spec _ _ _ _ _ _ happ
        rw [hq, hsig]
        exact ⟨bp_shrink_le a s1.entry_price hentry hms, hst2⟩
      · simp only [if_neg hms] at happ
        simp [rejectResult] at happ
    · simp only [if_neg hbp] at happ ⊢
      obtain ⟨hq, hsig⟩ := finish_checks_approved_spec _ _ _ _ _ _ happ
      rw [hq, hsig]
      exact ⟨not_lt.mp hbp, hst2⟩

theorem auto_stop_positive (cfg : RiskConfig) (s1 : TradeSignal)
    (hmand : cfg.mandatory_stop_loss = true)
    (hact : s1.action = .BUY ∨ s1.action = .SCALE_IN)
    (hge : 1/100 ≤ s1.entry_price) (hdsp : cfg.default_stop_pct ≤ 45) :
    0 < (if cfg.mandatory_stop_loss ∧ s1.stop_loss_price ≤ 0 ∧
          (s1.action = .BUY ∨ s1.action = .SCALE_IN) then
        round2 (s1.entry_price * (1 - cfg.default_stop_pct / 100))
      else s1.stop_loss_price) := by
  split_ifs with h
  · apply round2_pos
    have h1 : (11 : ℚ)/20 ≤ 1 - cfg.default_stop_pct / 100 := by linarith
    nlinarith [mul_le_mul hge h1 (by linarith) (by linarith : (0 : ℚ) ≤ s1.entry_price)]
  · by_contra h0
    push_neg at h0
    exact h ⟨hmand, h0, hact⟩

/-- C3 (amended): every approved result with a positive entry price fits in
buying power, and carries a positive stop provided the action is an entry
(BUY or SCALE_IN), `mandatory_stop_loss` is on, and the auto-stop formula
cannot round to zero (entry ≥ $0.01 and default stop ≤ 45%). -/
theorem approved_fits_buying_power_and_stop_positive
    (cfg : RiskConfig) (halted : Bool) (r : String) (s : TradeSignal) (a : AccountInfo)
    (ps : List Position) (n : ℕ)
    (hentry : 0 < s.entry_price)
    (happ : (check_signal cfg halted r s a ps n).1.approved = true) :
    ((check_signal cfg halted r s a ps n).1.adjusted_qty : ℚ) * s.entry_price
        ≤ a.buying_power ∧
    (cfg.mandatory_stop_loss = true → (s.action = .BUY ∨ s.action = .SCALE_IN) →
      1/100 ≤ s.entry_price → cfg.default_stop_pct ≤ 45 →
      0 < (check_signal cfg halted r s a ps n).1.signal.stop_loss_price) := by
  simp only [check_signal] at happ ⊢
  rcases hf : find_position s.ticker ps with _ | ex <;> simp only [hf] at happ ⊢
  · split_ifs at happ ⊢ with hhalt hpnl hblock hmax
    · simp [rejectResult] at happ
    · simp [rejectResult] at happ
    · simp [rejectResult] at happ
    · simp [rejectResult] at happ
    · obtain ⟨hA, hB⟩ := check_signal_rest_approved_spec cfg s a n s.qty [] [] hentry happ
      refine ⟨hA, fun hmand hact hge hdsp => ?_⟩
      rw [hB]
      exact auto_stop_positive cfg s hmand hact hge hdsp
  · split_ifs at happ ⊢ with hhalt hpnl hblock hmax hbuy hexp
    · simp [rejectResult] at happ
    · simp [rejectResult] at happ
    · simp [rejectResult] at happ
    · simp [rejectResult] at happ
    · obtain ⟨hA, hB⟩ := check_signal_rest_approved_spec cfg
        { s with action := .SCALE_IN } a n s.qty
        ["Already holding " ++ s.ticker] ["Converted to SCALE_IN"] hentry happ
      refine ⟨hA, fun hmand hact hge hdsp => ?_⟩
      rw [hB]
      exact auto_stop_positive cfg { s with action := .SCALE_IN } hmand (Or.inr rfl) hge hdsp
    · simp [rejectResult] at happ
    · obtain ⟨hA, hB⟩ := check_signal_rest_approved_spec cfg s a n s.qty [] [] hentry happ
      refine ⟨hA, fun hmand hact hge hdsp => ?_⟩
      rw [hB]
      exact auto_stop_positive cfg s hmand hact hge hdsp

theorem approved_fits_buying_power_and_stop_positive_witness :
    0 < wSignalBuy.entry_price ∧
    (check_signal {} false "" wSignalBuy wAccount [] 700).1.approved = true ∧
    ((check_signal {} false "" wSignalBuy wAccount [] 700).1.adjusted_qty : ℚ)
        * wSignalBuy.entry_price ≤ wAccount.buying_power ∧
    0 < (check_signal {} false "" wSignalBuy wAccount [] 700).1.signal.stop_loss_price := by
  have hentry : 0 < wSignalBuy.entry_price := by norm_num [wSignalBuy]
  have happ : (check_signal {} false "" wSignalBuy wAccount [] 700).1.approved = true := by
    norm_num [check_signal, check_signal_rest, finish_checks, validate_position_size,
      check_time_window, find_position, rejectResult, truncInt, round2, roundHalfEven,
      wSignalBuy, wAccount]
  obtain ⟨hA, hB⟩ := approved_fits_buying_power_and_stop_positive {} false "" wSignalBuy
    wAccount [] 700 hentry happ
  exact ⟨hentry, happ, hA,
    hB rfl (Or.inl rfl) (by norm_num [wSignalBuy]) (by norm_num [RiskConfig.default_stop_pct])⟩

/-- C4 (amended): `_validate_position_size` never increases the dollar size
and always caps it at the %-of-equity cap; the absolute cap applies only
when the %-of-equity cap did not bind (the source returns right after the
first cap), so the min of both caps holds only then; an adjustment is
recorded exactly when a cap binds; the quantity never increases provided
the input size is consistent (`qty × entry`, `entry > 0`) and the caps are
nonnegative. -/
theorem validate_position_size_caps (cfg : RiskConfig) (s : TradeSignal) (a : AccountInfo) :
    (validate_position_size cfg s a).1.position_size_usd ≤ s.position_size_usd ∧
    (validate_position_size cfg s a).1.position_size_usd
        ≤ a.equity * (cfg.max_position_pct / 100) ∧
    (s.position_size_usd ≤ a.equity * (cfg.max_position_pct / 100) →
      (validate_position_size cfg s a).1.position_size_usd ≤ cfg.max_position_usd) ∧
    ((validate_position_size cfg s a).2.isSome ↔
      (a.equity * (cfg.max_position_pct / 100) < s.position_size_usd ∨
        cfg.max_position_usd < s.position_size_usd)) ∧
    (0 < s.entry_price → s.position_size_usd = (s.qty : ℚ) * s.entry_price →
      0 ≤ a.equity * (cfg.max_position_pct / 100) → 0 ≤ cfg.max_position_usd →
      (validate_position_size cfg s a).1.qty ≤ s.qty) := by
  by_cases h1 : a.equity * (cfg.max_position_pct / 100) < s.position_size_usd
  · simp only [validate_position_size, if_pos h1]
    refine ⟨le_of_lt h1, le_refl _, fun hc => absurd h1 (not_lt.mpr hc), by simp [h1], ?_⟩
    intro hentry hcons hcap _hhard
    rw [if_pos hentry]
    have hx : (truncInt (a.equity * (cfg.max_position_pct / 100) / s.entry_price) : ℚ)
        ≤ a.equity * (cfg.max_position_pct / 100) / s.entry_price :=
      truncInt_le _ (div_nonneg hcap hentry.le)
    have hlt : a.equity * (cfg.max_position_pct / 100) / s.entry_price < (s.qty : ℚ) := by
      rw [div_lt_iff₀ hentry]
      rw [hcons] at h1
      exact h1
    exact_mod_cast (lt_of_le_of_lt hx hlt).le
  · by_cases h2 : cfg.max_position_usd < s.position_size_usd
    · simp only [validate_position_size, if_neg h1, if_pos h2]
      refine ⟨le_of_lt h2, le_trans h2.le (not_lt.mp h1), fun _ => le_refl _,
        by simp [h2], ?_⟩
      intro hentry hcons _hcap hhard
      rw [if_pos hentry]
      have hx : (truncInt (cfg.max_position_usd / s.entry_price) : ℚ)
          ≤ cfg.max_position_usd / s.entry_price :=
        truncInt_le _ (div_nonneg hhard hentry.le)
      have hlt : cfg.max_position_usd / s.entry_price < (s.qty : ℚ) := by
        rw [div_lt_iff₀ hentry]
        rw [hcons] at h2
        exact h2
      exact_mod_cast (lt_of_le_of_lt hx hlt).le
    · simp only [validate_position_size, if_neg h1, if_neg h2]
      exact ⟨le_refl _, not_lt.mp h1, fun _ => not_lt.mp h2, by simp [h1, h2],
        fun _ _ _ _ => le_refl _⟩

/-- C4 counterexample: with the %-of-equity cap ($1M) above the hard cap
($25k) and a $2M request, the validated size is $1M — not the minimum of the
two caps (the source returns right after the first cap without consulting
the second); and when the signal's dollar size is inconsistent with
`qty × entry`, the validation can increase the quantity (1 share becomes
100000). -/
theorem validate_position_size_exceeds_min_cap :
    (validate_position_size cxConfig cxSignalA cxAccount).1.position_size_usd = 1000000 ∧
    min (cxAccount.equity * (cxConfig.max_position_pct / 100)) cxConfig.max_position_usd
        = 25000 ∧
    25000 < (validate_position_size cxConfig cxSignalA cxAccount).1.position_size_usd ∧
    cxSignalB.qty < (validate_position_size cxConfig cxSignalB cxAccount).1.qty := by
  norm_num [validate_position_size, truncInt, cxConfig, cxSignalA, cxSignalB, cxAccount]

theorem validate_position_size_caps_witness :
    (validate_position_size cxConfig cxSignalA cxAccount).1.position_size_usd
        ≤ cxSignalA.position_size_usd ∧
    (validate_position_size cxConfig cxSignalA cxAccount).1.position_size_usd
        ≤ cxAccount.equity * (cxConfig.max_position_pct / 100) ∧
    (validate_position_size cxConfig cxSignalA cxAccount).1.qty ≤ cxSignalA.qty := by
  obtain ⟨hA, hB, -, -, hE⟩ := validate_position_size_caps cxConfig cxSignalA cxAccount
  exact ⟨hA, hB,
    hE (by norm_num [cxSignalA]) (by norm_num [cxSignalA])
      (by norm_num [cxAccount, cxConfig]) (by norm_num [cxConfig])⟩

theorem deployed_cost_cons (p : TrackedPosition) (l : List TrackedPosition)
    (sid : StrategyID) :
    deployed_cost (p :: l) sid =
      (if p.strategy_id = sid ∧ p.status = .opened then p.cost_basis else 0) +
        deployed_cost l sid := by
  simp only [deployed_cost, List.foldr_cons]
  split_ifs <;> simp

theorem deployed_cost_append (l1 l2 : List TrackedPosition) (sid : StrategyID) :
    deployed_cost (l1 ++ l2) sid = deployed_cost l1 sid + deployed_cost l2 sid := by
  induction l1 with
  | nil => simp [deployed_cost]
  | cons p l ih =>
    rw [List.cons_append, deployed_cost_cons, deployed_cost_cons, ih]
    ring

theorem deployed_cost_singleton (p : TrackedPosition) (sid : StrategyID) :
    deployed_cost [p] sid =
      if p.strategy_id = sid ∧ p.status = .opened then p.cost_basis else 0 := by
  simp only [deployed_cost, List.foldr_cons, List.foldr_nil]
  split_ifs <;> simp

theorem close_in_list_none_spec (tk : String) (x : ℚ) (ps : List TrackedPosition)
    (hwf : ∀ p ∈ ps, WFOpenPos p) :
    ((close_in_list tk x none ps).2 = none ∧ (close_in_list tk x none ps).1 = ps) ∨
    ∃ o, (close_in_list tk x none ps).2 = some o ∧ o.full = true ∧
      (∀ p ∈ (close_in_list tk x none ps).1, WFOpenPos p) ∧
      o.pos.realized_pnl = (x - o.pos.entry_price) * (o.pos.qty : ℚ) ∧
      o.pos.cost_basis = o.pos.entry_price * (o.pos.qty : ℚ) ∧
      0 ≤ o.pos.entry_price ∧ 0 ≤ o.pos.qty ∧
      (∀ sid, deployed_cost (close_in_list tk x none ps).1 sid =
        deployed_cost ps sid -
          (if o.pos.strategy_id = sid then o.pos.cost_basis else 0)) := by
  induction ps with
  | nil => exact Or.inl ⟨rfl, rfl⟩
  | cons p rest ih =>
    have hp := hwf p (List.mem_cons_self p rest)
    have hrest : ∀ q ∈ rest, WFOpenPos q := fun q hq => hwf q (List.mem_cons_of_mem p hq)
    obtain ⟨hst, hpnl, hrem, hcb, hep, hq⟩ := hp
    by_cases hc : p.ticker.toUpper = tk.toUpper ∧ (p.status = .opened ∨ p.status = .part)
    · right
      have hfull : close_in_list tk x none (p :: rest) =
          (rest, some ⟨(x - p.entry_price) * (p.qty : ℚ),
            { p with realized_pnl := p.realized_pnl + (x - p.entry_price) * (p.qty : ℚ),
                     remaining_qty := 0, status := .closed }, true⟩) := by
        simp only [close_in_list, if_pos hc, pyCloseQty, min_self, hrem, sub_self, le_refl,
          if_pos, hpnl]
      rw [hfull]
      refine ⟨_, rfl, rfl, hrest, by simpa using hpnl ▸ rfl, hcb, hep, hq, ?_⟩
      intro sid
      rw [deployed_cost_cons]
      simp only [hst]
      by_cases hsid : p.strategy_id = sid
      · simp [hsid]
      · simp [hsid]
    · have hrec : close_in_list tk x none (p :: rest) =
          (p :: (close_in_list tk x none rest).1, (close_in_list tk x none rest).2) := by
        simp only [close_in_list, if_neg hc]
      rw [hrec]
      rcases ih hrest with ⟨h2, h1⟩ | ⟨o, h2, hfull, hwf', hrpnl, hcb', hep', hq', hdep⟩
      · exact Or.inl ⟨h2, by rw [h1]⟩
      · right
        refine ⟨o, h2, hfull, ?_, hrpnl, hcb', hep', hq', ?_⟩
        · intro q hq'
          rcases List.mem_cons.mp hq' with h | h
          · exact h ▸ hwf p (List.mem_cons_self p rest)
          · exact hwf' q h
        · intro sid
          rw [deployed_cost_cons, deployed_cost_cons, hdep sid]
          ring

theorem can_open_true_capital (st : ManagerState) (sid : StrategyID) (cost : ℚ)
    (h : (can_open_position st sid cost).1 = true) :
    cost ≤ get_available_capital st sid := by
  unfold can_open_position at h
  by_cases h1 : (st.strategies sid).max_positions ≤ get_position_count st sid
  · rw [if_pos h1] at h
    simp at h
  · rw [if_neg h1] at h
    by_cases h2 : get_available_capital st sid < cost
    · rw [if_pos h2] at h
      simp at h
    · exact not_lt.mp h2

theorem open_position_inv (st : ManagerState) (p : TrackedPosition)
    (hInv : ManagerInv st) (hwf : WFOpenPos p) :
    ManagerInv (open_position st p).1 := by
  obtain ⟨hcap, hwfs⟩ := hInv
  unfold open_position
  split_ifs with hok
  · constructor
    · intro sid
      have havail := can_open_true_capital st p.strategy_id p.cost_basis hok
      have hmax : get_available_capital st p.strategy_id =
          (st.strategies p.strategy_id).current_capital
            - deployed_cost st.positions p.strategy_id := by
        unfold get_available_capital
        exact max_eq_right (by linarith [hcap p.strategy_id])
      rw [hmax] at havail
      simp only [updateBucket]
      rw [deployed_cost_append, deployed_cost_singleton]
      by_cases hsid : sid = p.strategy_id
      · subst hsid
        simp only [hwf.1, and_self, if_true, eq_self_iff_true, true_and]
        linarith
      · rw [if_neg hsid, if_neg (fun hh => hsid (And.left hh).symm)]
        simpa using hcap sid
    · intro q hq
      rcases List.mem_append.mp hq with h | h
      · exact hwfs q h
      · rcases List.mem_singleton.mp h with rfl
        exact hwf
  · exact ⟨hcap, hwfs⟩

theorem close_position_inv (st : ManagerState) (tk : String) (x : ℚ)
    (hInv : ManagerInv st) (hx : 0 ≤ x) :
    ManagerInv (close_position st tk x none).1 := by
  obtain ⟨hcap, hwfs⟩ := hInv
  rcases close_in_list_none_spec tk x st.positions hwfs with ⟨h2, h1⟩ |
    ⟨o, h2, hfull, hwf', hrpnl, hcb, hep, hq, hdep⟩
  · simp only [close_position, h2]
    exact ⟨hcap, hwfs⟩
  · simp only [close_position, h2, hfull, if_true]
    have hpnl_ge : -o.pos.cost_basis ≤ o.pos.realized_pnl := by
      rw [hrpnl, hcb]
      have hxq : 0 ≤ x * (o.pos.qty : ℚ) := mul_nonneg hx (by exact_mod_cast hq)
      nlinarith
    have hcost0 : 0 ≤ o.pos.cost_basis := by
      rw [hcb]
      exact mul_nonneg hep (by exact_mod_cast hq)
    constructor
    · intro sid
      simp only [updateBucket]
      rw [hdep sid]
      by_cases hsid : sid = o.pos.strategy_id
      · subst hsid
        rw [if_pos rfl, if_pos rfl]
        split_ifs <;> simp <;> linarith [hcap o.pos.strategy_id]
      · rw [if_neg (fun h => hsid h.symm), if_neg hsid]
        simpa using hcap sid
    · intro q hq'
      exact hwf' q hq'

theorem run_ops_inv (ops : List MgrOp) (st : ManagerState) (hInv : ManagerInv st)
    (hwf : ∀ op ∈ ops, WFOp op) : ManagerInv (run_ops st ops) := by
  induction ops generalizing st with
  | nil => exact hInv
  | cons op rest ih =>
    have hop := hwf op (List.mem_cons_self op rest)
    have hrest : ∀ o ∈ rest, WFOp o := fun o ho => hwf o (List.mem_cons_of_mem op ho)
    cases op with
    | openPos p => exact ih (open_position st p).1 (open_position_inv st p hInv hop) hrest
    | closePos tk x oq =>
      obtain ⟨hoq, hx⟩ := hop
      subst hoq
      exact ih (close_position st tk x none).1 (close_position_inv st tk x hInv hx) hrest

theorem initial_manager_inv : ManagerInv initialManagerState := by
  constructor
  · intro sid
    cases sid <;> norm_num [initialManagerState, deployed_cost, build_default_strategies]
  · intro p hp
    simp [initialManagerState] at hp

/-- C5 (amended): from the configured buckets, under sequences of
`open_position` and full `close_position` calls (no partial-quantity closes)
with nonnegative prices and quantities, no bucket's open cost basis ever
exceeds its current capital. -/
theorem bucket_deployed_within_capital (ops : List MgrOp)
    (hwf : ∀ op ∈ ops, WFOp op) (sid : StrategyID) :
    deployed_cost (run_ops initialManagerState ops).positions sid
      ≤ ((run_ops initialManagerState ops).strategies sid).current_capital :=
  (run_ops_inv ops initialManagerState initial_manager_inv hwf).1 sid

theorem bucket_deployed_within_capital_witness :
    (∀ op ∈ wOps, WFOp op) ∧
    deployed_cost (run_ops initialManagerState wOps).positions .SHORT_MOMENTUM
      ≤ ((run_ops initialManagerState wOps).strategies .SHORT_MOMENTUM).current_capital := by
  have hwf : ∀ op ∈ wOps, WFOp op := by
    intro op hop
    simp only [wOps, List.mem_cons, List.not_mem_nil, or_false] at hop
    rcases hop with rfl | rfl | rfl <;>
      norm_num [WFOp, WFOpenPos, mkTrackedPosition]
  exact ⟨hwf, bucket_deployed_within_capital wOps hwf .SHORT_MOMENTUM⟩

theorem part_ne_opened : (PosStatus.part = PosStatus.opened) = False := by simp

theorem closed_ne_opened : (PosStatus.closed = PosStatus.opened) = False := by simp

theorem part_ne_closed_opened : (PosStatus.part = PosStatus.closed) = False := by simp

/-- C5 counterexample: after the sequence above, the SHORT_MOMENTUM bucket
has $9,000 of open cost basis against $7,000 of capital — partial closes
drop a position out of the deployed sum before the loss is charged, so the
invariant fails on the code as written. -/
theorem bucket_overcommitted_cx :
    deployed_cost (run_ops initialManagerState cxOps).positions .SHORT_MOMENTUM = 9000 ∧
    ((run_ops initialManagerState cxOps).strategies .SHORT_MOMENTUM).current_capital = 7000 ∧
    ((run_ops initialManagerState cxOps).strategies .SHORT_MOMENTUM).current_capital
      < deployed_cost (run_ops initialManagerState cxOps).positions .SHORT_MOMENTUM := by
  norm_num [cxOps, run_ops, initialManagerState, open_position, close_position,
    can_open_position, get_available_capital, get_position_count, deployed_cost,
    close_in_list, pyCloseQty, mkTrackedPosition, updateBucket, build_default_strategies,
    part_ne_opened, closed_ne_opened, part_ne_closed_opened]

/-- C6: from NEAR_LEVEL, a flush of exactly `fb_max_flush` qualifies (the
guard is `flush > fb_max_flush`, so the boundary is inclusive): the machine
moves to FLUSH_DETECTED and, on the next cycle (the reclaim), to
ACCEPTANCE_WAIT; a flush strictly beyond the maximum resets to IDLE. -/
theorem flush_boundary_inclusive (br br2 : BrokerCycle) (max_daily : ℕ)
    (s : ManciniState) (p p2 : ℚ)
    (hst : s.state = .NEAR_LEVEL) (htr : s.trades_today < max_daily)
    (hflush : s.prior_day_low - p = MANCINI.fb_max_flush)
    (hrec : s.prior_day_low < p2) :
    (run_cycle br false true max_daily s p).state = .FLUSH_DETECTED ∧
    (run_cycle br2 false true max_daily (run_cycle br false true max_daily s p) p2).state
        = .ACCEPTANCE_WAIT ∧
    (∀ p', MANCINI.fb_max_flush < s.prior_day_low - p' →
      (run_cycle br false true max_daily s p').state = .IDLE) := by
  have hmin : MANCINI.fb_min_flush ≤ s.prior_day_low - p := by
    rw [hflush]; norm_num [MANCINI]
  have hmax : ¬ MANCINI.fb_max_flush < s.prior_day_low - p := by
    rw [hflush]
    exact lt_irrefl _
  have h1 : run_cycle br false true max_daily s p =
      { s with flush_low := p, flush_size := s.prior_day_low - p,
               flush_type := if MANCINI.fb_flush_deep_threshold ≤ s.prior_day_low - p
                             then "deep" else "shallow",
               acceptance_candles_needed :=
                 if MANCINI.fb_flush_deep_threshold ≤ s.prior_day_low - p then
                   MANCINI.acceptance_candles_deep
                 else MANCINI.acceptance_candles_shallow,
               acceptance_candles_elapsed := 0,
               state := .FLUSH_DETECTED } := by
    simp [run_cycle, hst, htr, hmin, hmax]
  refine ⟨by rw [h1], ?_, ?_⟩
  · rw [h1]
    simp [run_cycle, htr]
  · intro p' hp'
    have hmin' : MANCINI.fb_min_flush ≤ s.prior_day_low - p' := by
      have : (MANCINI.fb_min_flush : ℚ) ≤ MANCINI.fb_max_flush := by norm_num [MANCINI]
      linarith
    simp [run_cycle, hst, htr, hmin', hp']

theorem flush_boundary_inclusive_witness :
    (run_cycle {} false true 5 fbNear 582).state = .FLUSH_DETECTED ∧
    (run_cycle {} false true 5 (run_cycle {} false true 5 fbNear 582) 591).state
        = .ACCEPTANCE_WAIT ∧
    (run_cycle {} false true 5 fbNear 581).state = .IDLE := by
  obtain ⟨h1, h2, h3⟩ := flush_boundary_inclusive {} {} 5 fbNear 582 591 rfl
    (by norm_num [fbNear]) (by norm_num [fbNear, MANCINI]) (by norm_num [fbNear])
  exact ⟨h1, h2, h3 581 (by norm_num [fbNear, MANCINI])⟩

/-- C7 (amended): a failed market-buy submission sends the machine to IDLE
with every entry field exactly as before the attempt (so nothing from this
attempt is retained — though values from an earlier trade may persist, since
the EXITED-to-IDLE reset clears only `entry_price` and the order ids); after
a successful buy the machine always ends ENTERED with the entry fields set
and `tier1_order_id` equal to the limit-sell result — in particular a failed
tier-1 limit sell does not reset to IDLE. -/
theorem entry_failure_resets_without_new_state (br : BrokerCycle) (s : ManciniState)
    (price : ℚ) :
    (br.buy_id = none →
      (execute_entry br s price).state = .IDLE ∧
      (execute_entry br s price).entry_price = s.entry_price ∧
      (execute_entry br s price).stop_price = s.stop_price ∧
      (execute_entry br s price).target1 = s.target1 ∧
      (execute_entry br s price).shares_entered = s.shares_entered ∧
      (execute_entry br s price).tier1_order_id = s.tier1_order_id ∧
      (execute_entry br s price).runner_order_id = s.runner_order_id) ∧
    (br.buy_id.isSome = true → 0 < price - (s.flush_low - MANCINI.stop_buffer) →
      (execute_entry br s price).state = .ENTERED ∧
      (execute_entry br s price).entry_price = some price ∧
      (execute_entry br s price).stop_price
          = some (round2 (s.flush_low - MANCINI.stop_buffer)) ∧
      1 ≤ (execute_entry br s price).shares_entered ∧
      (execute_entry br s price).tier1_order_id = br.limit_sell_id) := by
  constructor
  · intro hbuy
    simp only [execute_entry]
    split_ifs <;> simp [hbuy]
  · intro hbuy hdist
    rcases hb : br.buy_id with _ | oid
    · rw [hb] at hbuy
      simp at hbuy
    · have hd0 : ¬ (price - (s.flush_low - MANCINI.stop_buffer) ≤ 0) := not_le.mpr hdist
      have hrr : ¬ ((price + (price - (s.flush_low - MANCINI.stop_buffer))
          * MANCINI.tier1_target_mult - price) / (price - (s.flush_low - MANCINI.stop_buffer))
          < MANCINI.min_reward_risk) := by
        have harith : price + (price - (s.flush_low - MANCINI.stop_buffer))
            * MANCINI.tier1_target_mult - price
            = (price - (s.flush_low - MANCINI.stop_buffer)) * MANCINI.tier1_target_mult := by
          ring
        rw [harith, mul_comm, mul_div_assoc,
          div_self (ne_of_gt hdist), mul_one]
        norm_num [MANCINI]
      simp only [execute_entry]
      rw [if_neg hd0, if_neg hrr, hb]
      exact ⟨rfl, rfl, rfl, le_max_left _ _, rfl⟩

theorem entry_failure_resets_without_new_state_witness :
    (execute_entry {} fbWait 591).state = .IDLE ∧
    (execute_entry {} fbWait 591).stop_price = fbWait.stop_price ∧
    (execute_entry { buy_id := some "B1" } fbWait 591).state = .ENTERED ∧
    (execute_entry { buy_id := some "B1" } fbWait 591).tier1_order_id = none := by
  have h1 := (entry_failure_resets_without_new_state {} fbWait 591).1 rfl
  have h2 := (entry_failure_resets_without_new_state { buy_id := some "B1" } fbWait 591).2
    rfl (by norm_num [fbWait, MANCINI])
  exact ⟨h1.1, h1.2.2.1, h2.1, h2.2.2.2.2⟩

/-- C7 counterexample: a broker submission failure during entry (the tier-1
limit sell) does not reset the machine to IDLE — it ends the entry attempt
in ENTERED with no outstanding tier-1 order id. -/
theorem fb_entry_failure_not_reset :
    fbBrokerLimitFail.limit_sell_id = none ∧
    fbChain.state = .ENTERED ∧
    fbChain.tier1_order_id = none ∧
    fbChain.state ≠ .IDLE := by
  refine ⟨rfl, ?_, ?_, ?_⟩ <;>
    norm_num [fbChain, fbS0, fbBrokerLimitFail, run_cycle, execute_entry, MANCINI,
      truncInt, round2, roundHalfEven] <;>
    simp
